import Mathlib

/-!
Shallow embedding of the PyDash backend ingestion-to-alert pipeline.

Sources embedded:
- `backend/config.py`     : the threshold settings object.
- `backend/database.py`   : the Sensor / SensorReading / Alert rows; the
  database session is modelled as an explicit `Db` value threaded through.
- `backend/alert_system.py` : `check_alert_conditions`, `create_alert`.
- `backend/data_processor.py` : `process_sensor_data` (the ingestion
  gateway).  Python exceptions are modelled by two oracles: `appendOk`
  (whether the reading-append commit succeeds, i.e. storage availability)
  and `alertOk` (whether the alert stage raises).  The outcome records the
  final database, the error messages printed, and whether an exception
  propagated to the caller (`raised`).
- `backend/main.py`       : the HTTP write endpoint `add_sensor_data` and
  the read endpoint `get_sensor_readings`.
- `backend/mqtt_client.py` : the bus handler `on_message`; a payload is
  either `malformed` (JSON decode / attribute errors raised by
  `json.loads` or `.get`) or a decoded object with optional `value` and
  `unit` fields.

Numeric values (Python floats) are modelled as rationals; timestamps
(`datetime.utcnow()`) as integer seconds, so `timedelta(hours=1)` is 3600.
-/

namespace PyDash

/-- Threshold settings from `config.py` (environment-supplied, with the
defaults recorded in the source). -/
structure Settings where
  TEMPERATURE_MIN : ℚ
  TEMPERATURE_MAX : ℚ
  HUMIDITY_MIN : ℚ
  HUMIDITY_MAX : ℚ
deriving Repr, DecidableEq

/-- The default thresholds from `config.py`. -/
def defaultSettings : Settings :=
  { TEMPERATURE_MIN := 10, TEMPERATURE_MAX := 30
  , HUMIDITY_MIN := 20, HUMIDITY_MAX := 80 }

/-- A row of the `sensors` table (`database.py`). -/
structure Sensor where
  sensor_id : String
  name : String
  location : String
  sensor_type : String
deriving Repr, DecidableEq

/-- A row of the `sensor_readings` table (`database.py`). -/
structure SensorReading where
  sensor_id : String
  timestamp : Int
  value : ℚ
  unit : String
deriving Repr, DecidableEq

/-- A row of the `alerts` table (`database.py`); `was_notified` is the
integer flag of the source (0: not sent, 1: sent). -/
structure Alert where
  sensor_id : String
  timestamp : Int
  value : ℚ
  threshold : ℚ
  message : String
  was_notified : Nat
deriving Repr, DecidableEq

/-- The database state: the three tables. -/
structure Db where
  sensors : List Sensor
  readings : List SensorReading
  alerts : List Alert
deriving Repr, DecidableEq

/-- The empty database (`init_db` on a fresh file). -/
def Db.empty : Db := { sensors := [], readings := [], alerts := [] }

/-- The `sensor_data` dict that `process_sensor_data` receives.  The
`timestamp` key is optional in the dict (`sensor_data.get("timestamp",
datetime.utcnow())`), hence `Option Int` here. -/
structure SensorData where
  sensor_id : String
  name : String
  location : String
  sensor_type : String
  value : ℚ
  unit : String
  timestamp : Option Int
deriving Repr, DecidableEq

/-- Message of the low-temperature branch of `check_alert_conditions`. -/
def lowTemperatureMsg (value mn : ℚ) : String :=
  "Low temperature alert: " ++ toString value ++ "°C is below threshold of "
    ++ toString mn ++ "°C"

/-- Message of the high-temperature branch of `check_alert_conditions`. -/
def highTemperatureMsg (value mx : ℚ) : String :=
  "High temperature alert: " ++ toString value ++ "°C is above threshold of "
    ++ toString mx ++ "°C"

/-- Message of the low-humidity branch of `check_alert_conditions`. -/
def lowHumidityMsg (value mn : ℚ) : String :=
  "Low humidity alert: " ++ toString value ++ "% is below threshold of "
    ++ toString mn ++ "%"

/-- Message of the high-humidity branch of `check_alert_conditions`. -/
def highHumidityMsg (value mx : ℚ) : String :=
  "High humidity alert: " ++ toString value ++ "% is above threshold of "
    ++ toString mx ++ "%"

/-- `create_alert` from `alert_system.py`.  It looks for a recent alert for
the same sensor with `timestamp > now - 1 hour`; if none exists it stores a
new alert.  The row is inserted with `was_notified = 0` and updated to `1`
in the same call before returning (`send_notifications` is commented out in
the source, so the flip does not depend on any notification outcome); the
returned database is the state after the second commit. -/
def create_alert (now : Int) (db : Db) (d : SensorData) (threshold : ℚ)
    (message : String) : Db :=
  let one_hour_ago : Int := now - 3600
  let recent_alert := db.alerts.find?
    (fun a => a.sensor_id == d.sensor_id && decide (one_hour_ago < a.timestamp))
  match recent_alert with
  | some _ => db
  | none =>
      let alert : Alert :=
        { sensor_id := d.sensor_id, timestamp := now, value := d.value
        , threshold := threshold, message := message, was_notified := 0 }
      let alertAfterFlip : Alert := { alert with was_notified := 1 }
      { db with alerts := db.alerts ++ [alertAfterFlip] }

/-- `check_alert_conditions` from `alert_system.py`: the if/elif chain over
the sensor type, calling `create_alert` on a strict threshold crossing. -/
def check_alert_conditions (s : Settings) (now : Int) (db : Db)
    (d : SensorData) : Db :=
  if d.sensor_type = "temperature" then
    if d.value < s.TEMPERATURE_MIN then
      create_alert now db d s.TEMPERATURE_MIN
        (lowTemperatureMsg d.value s.TEMPERATURE_MIN)
    else if d.value > s.TEMPERATURE_MAX then
      create_alert now db d s.TEMPERATURE_MAX
        (highTemperatureMsg d.value s.TEMPERATURE_MAX)
    else db
  else if d.sensor_type = "humidity" then
    if d.value < s.HUMIDITY_MIN then
      create_alert now db d s.HUMIDITY_MIN
        (lowHumidityMsg d.value s.HUMIDITY_MIN)
    else if d.value > s.HUMIDITY_MAX then
      create_alert now db d s.HUMIDITY_MAX
        (highHumidityMsg d.value s.HUMIDITY_MAX)
    else db
  else db

/-- An alert candidate: the threshold passed to `create_alert` and the
message, as produced by one branch of `check_alert_conditions`. -/
structure AlertCandidate where
  threshold : ℚ
  message : String
deriving Repr, DecidableEq

/-- The alert evaluator as a pure function: the branch structure of
`check_alert_conditions` with each `create_alert` call site replaced by
`some` of the (threshold, message) arguments, and each fall-through by
`none`.  `evaluate_eq_check_alert_conditions` below proves this agrees
with the stateful source transcription. -/
def evaluate (s : Settings) (sensor_type : String) (value : ℚ) :
    Option AlertCandidate :=
  if sensor_type = "temperature" then
    if value < s.TEMPERATURE_MIN then
      some { threshold := s.TEMPERATURE_MIN
           , message := lowTemperatureMsg value s.TEMPERATURE_MIN }
    else if value > s.TEMPERATURE_MAX then
      some { threshold := s.TEMPERATURE_MAX
           , message := highTemperatureMsg value s.TEMPERATURE_MAX }
    else none
  else if sensor_type = "humidity" then
    if value < s.HUMIDITY_MIN then
      some { threshold := s.HUMIDITY_MIN
           , message := lowHumidityMsg value s.HUMIDITY_MIN }
    else if value > s.HUMIDITY_MAX then
      some { threshold := s.HUMIDITY_MAX
           , message := highHumidityMsg value s.HUMIDITY_MAX }
    else none
  else none

/-- The configured threshold table: the sensor types for which
`check_alert_conditions` has a (min, max) pair. -/
def threshold_table (s : Settings) (sensor_type : String) : Option (ℚ × ℚ) :=
  if sensor_type = "temperature" then some (s.TEMPERATURE_MIN, s.TEMPERATURE_MAX)
  else if sensor_type = "humidity" then some (s.HUMIDITY_MIN, s.HUMIDITY_MAX)
  else none

/-- What `process_sensor_data` leaves behind: the database state, the error
messages printed, and whether an exception escaped to the caller. -/
structure IngestOutcome where
  db : Db
  log : List String
  raised : Bool
deriving Repr, DecidableEq

/-- `process_sensor_data` from `data_processor.py`.  Steps: resolve the
sensor (create-if-absent, committed at once); append the reading with
timestamp `sensor_data.get("timestamp", utcnow)`; run
`check_alert_conditions` inside its own try/except.  `appendOk = false`
models the reading-append commit raising a storage error: the outer
`except` catches it, rolls back the uncommitted reading (the sensor row was
already committed), prints `Error storing sensor data`, and returns
normally.  `alertOk = false` models an exception inside the alert stage:
the inner `except` catches it and prints `Error checking alert conditions`;
the committed reading stays.  No branch re-raises, so `raised` is `false`
in every outcome. -/
def process_sensor_data (s : Settings) (appendOk alertOk : Bool) (now : Int)
    (db : Db) (d : SensorData) : IngestOutcome :=
  let db1 :=
    match db.sensors.find? (fun s0 => s0.sensor_id == d.sensor_id) with
    | some _ => db
    | none =>
        { db with sensors := db.sensors ++
            [{ sensor_id := d.sensor_id, name := d.name
             , location := d.location, sensor_type := d.sensor_type }] }
  if appendOk then
    let reading : SensorReading :=
      { sensor_id := d.sensor_id, timestamp := d.timestamp.getD now
      , value := d.value, unit := d.unit }
    let db2 := { db1 with readings := db1.readings ++ [reading] }
    if alertOk then
      { db := check_alert_conditions s now db2 d, log := [], raised := false }
    else
      { db := db2, log := ["Error checking alert conditions"], raised := false }
  else
    { db := db1, log := ["Error storing sensor data"], raised := false }

/-- The request body of the HTTP write endpoint (`SensorData` pydantic
model in `main.py`): it has no timestamp field, so no origin timestamp can
be supplied through the public interface. -/
structure SensorDataIn where
  sensor_id : String
  value : ℚ
  unit : String
deriving Repr, DecidableEq

/-- Python `str.split(sep)` for a one-character separator, over the
character list (structurally recursive so that concrete splits compute in
the kernel).  `"".split(sep)` is `[""]`, and consecutive separators yield
empty segments, as in Python. -/
def pySplitAux (sep : Char) : List Char → List (List Char)
  | [] => [[]]
  | c :: cs =>
      let rest := pySplitAux sep cs
      if c = sep then [] :: rest
      else match rest with
        | [] => [[c]]
        | r :: rs => (c :: r) :: rs

/-- Python `str.split(sep)` for a one-character separator. -/
def pySplit (sep : Char) (s : String) : List String :=
  (pySplitAux sep s.data).map (fun l => String.mk l)

/-- Python `str.replace(old, new)` for one-character arguments. -/
def pyReplaceChar (old new : Char) (s : String) : String :=
  String.mk (s.data.map (fun c => if c = old then new else c))

/-- The `sensor_data` dict built by the HTTP endpoint `add_sensor_data` in
`main.py`: fallback metadata comes from the registered sensor when one
exists, else from the identifier (`sensor_id.split('_')[0]` for the type),
and the timestamp is `datetime.utcnow()` at handling time. -/
def add_sensor_data_payload (now : Int) (db : Db) (data : SensorDataIn) :
    SensorData :=
  let sensor := db.sensors.find? (fun s0 => s0.sensor_id == data.sensor_id)
  { sensor_id := data.sensor_id
  , name := match sensor with | some s0 => s0.name | none => data.sensor_id
  , location := match sensor with | some s0 => s0.location | none => "unknown"
  , sensor_type :=
      match sensor with
      | some s0 => s0.sensor_type
      | none => (pySplit '_' data.sensor_id).headD ""
  , value := data.value
  , unit := data.unit
  , timestamp := some now }

/-- The HTTP write path end-to-end: build the dict, then run the gateway
(the endpoint schedules `process_sensor_data` as a background task and
answers success regardless of its outcome). -/
def add_sensor_data (s : Settings) (appendOk alertOk : Bool) (now : Int)
    (db : Db) (data : SensorDataIn) : IngestOutcome :=
  process_sensor_data s appendOk alertOk now db
    (add_sensor_data_payload now db data)

/-- A decoded MQTT payload: `malformed` models `json.loads` (or the
subsequent attribute access) raising; otherwise the optional `value` and
`unit` fields of the JSON object. -/
inductive MqttPayload where
  | malformed
  | obj (value : Option ℚ) (unit : Option String)
deriving Repr, DecidableEq

/-- Python `str.capitalize()`: first character upper-cased, rest
lower-cased. -/
def pyCapitalize (s : String) : String :=
  match s.data with
  | [] => ""
  | c :: cs => String.mk (c.toUpper :: cs.map Char.toLower)

/-- Python `str.title()` restricted to space-separated alphabetic words,
which is how `on_message` uses it (the location has its underscores
replaced by spaces first). -/
def pyTitle (s : String) : String :=
  String.intercalate " " ((pySplit ' ' s).map pyCapitalize)

/-- The `sensor_data` dict built by the MQTT handler from the topic parts
and the payload: `sensor_id = f"{type}_{location}"`, heuristic name and
location, `value = float(payload.get("value", 0))`,
`unit = payload.get("unit", "")`, timestamp `utcnow` at handling time. -/
def mqtt_sensor_data (now : Int) (sensor_type location : String)
    (value : Option ℚ) (unit : Option String) : SensorData :=
  { sensor_id := sensor_type ++ "_" ++ location
  , name := pyCapitalize sensor_type ++ " Sensor"
  , location := pyTitle (pyReplaceChar '_' ' ' location)
  , sensor_type := sensor_type
  , value := value.getD 0
  , unit := unit.getD ""
  , timestamp := some now }

/-- `on_message` from `mqtt_client.py`.  A malformed payload raises inside
the try block; the except clause prints `Error processing MQTT message` and
returns (message dropped).  With a decoded payload the topic is split on
`/`; with at least 3 parts the dict is built and `process_sensor_data`
runs; with fewer the `if` has no else branch, so the message is dropped
silently, nothing logged. -/
def on_message (s : Settings) (appendOk alertOk : Bool) (now : Int) (db : Db)
    (topic : String) (payload : MqttPayload) : IngestOutcome :=
  match payload with
  | .malformed =>
      { db := db, log := ["Error processing MQTT message"], raised := false }
  | .obj v u =>
      let topic_parts := pySplit '/' topic
      if 3 ≤ topic_parts.length then
        process_sensor_data s appendOk alertOk now db
          (mqtt_sensor_data now (topic_parts.getD 1 "") (topic_parts.getD 2 "") v u)
      else
        { db := db, log := [], raised := false }

/-- Descending-by-timestamp order used by the read endpoints
(`order_by(timestamp.desc())`). -/
def tsDesc (a b : SensorReading) : Prop := b.timestamp ≤ a.timestamp

instance : DecidableRel tsDesc := fun _ _ => Int.decLe _ _

instance : IsTotal SensorReading tsDesc := ⟨fun a b => le_total b.timestamp a.timestamp⟩

instance : IsTrans SensorReading tsDesc := ⟨fun _ _ _ h1 h2 => le_trans h2 h1⟩

/-- The row set selected by `get_sensor_readings` before ordering and
limiting: filter by sensor, then optionally by `start_time <= timestamp`
and by `timestamp <= end_time`. -/
def queryPool (db : Db) (sensor_id : String)
    (start_time finish_time : Option Int) : List SensorReading :=
  let q0 := db.readings.filter (fun r => r.sensor_id == sensor_id)
  let q1 := match start_time with
    | some t => q0.filter (fun r => decide (t ≤ r.timestamp))
    | none => q0
  match finish_time with
  | some t => q1.filter (fun r => decide (r.timestamp ≤ t))
  | none => q1

/-- `get_sensor_readings` from `main.py`: filter by sensor, optionally by
`start_time <= timestamp` and `timestamp <= end_time`, order descending by
timestamp, take `limit` rows. -/
def get_sensor_readings (db : Db) (sensor_id : String) (limit : Nat)
    (start_time finish_time : Option Int) : List SensorReading :=
  (List.insertionSort tsDesc (queryPool db sensor_id start_time finish_time)).take limit

/-! Spec-side predicates used to state the claims. -/

/-- The message `msg` states direction, observed value and threshold in
this order: it starts with the direction word and the rendered value
appears before the rendered threshold. -/
def mentionsInOrder (dir : String) (v thr : ℚ) (msg : String) : Prop :=
  ∃ a b c, msg = dir ++ a ++ toString v ++ b ++ toString thr ++ c

/-- The dedup invariant of the spec: no two alerts of the same sensor have
creation timestamps less than the cooldown window (3600 s) apart. -/
def alertSpacingOk (db : Db) : Prop :=
  db.alerts.Pairwise
    (fun a b => a.sensor_id = b.sensor_id → 3600 ≤ |a.timestamp - b.timestamp|)

/-- The alerts stored for one sensor. -/
def alertsFor (db : Db) (sid : String) : List Alert :=
  db.alerts.filter (fun a => a.sensor_id == sid)

/-- Number of sensor rows carrying a given identifier. -/
def sidCount (db : Db) (sid : String) : Nat :=
  (db.sensors.filter (fun s0 => s0.sensor_id == sid)).length

/-- A canonical `humidity_den` reading used for concrete query scenarios:
value within thresholds, timestamp and value as given. -/
def demoReading (t : Int) (v : ℚ) : SensorData :=
  { sensor_id := "humidity_den", name := "humidity_den"
  , location := "unknown", sensor_type := "humidity"
  , value := v, unit := "%", timestamp := some t }

/-- The database left by five successive ingestions (hence five appended
readings) of `humidity_den` at timestamps 1..5. -/
def demoDb5 : Db :=
  (process_sensor_data defaultSettings true true 5
    (process_sensor_data defaultSettings true true 4
      (process_sensor_data defaultSettings true true 3
        (process_sensor_data defaultSettings true true 2
          (process_sensor_data defaultSettings true true 1 Db.empty
            (demoReading 1 41)).db (demoReading 2 42)).db
        (demoReading 3 43)).db (demoReading 4 44)).db (demoReading 5 45)).db

/-! Component lemmas about the embedded operations. -/

lemma create_alert_sensors (now : Int) (db : Db) (d : SensorData) (thr : ℚ)
    (m : String) : (create_alert now db d thr m).sensors = db.sensors := by
  unfold create_alert
  cases h : db.alerts.find? (fun a => a.sensor_id == d.sensor_id &&
      decide (now - 3600 < a.timestamp)) <;> simp [h]

lemma create_alert_readings (now : Int) (db : Db) (d : SensorData) (thr : ℚ)
    (m : String) : (create_alert now db d thr m).readings = db.readings := by
  unfold create_alert
  cases h : db.alerts.find? (fun a => a.sensor_id == d.sensor_id &&
      decide (now - 3600 < a.timestamp)) <;> simp [h]

lemma create_alert_alerts (now : Int) (db : Db) (d : SensorData) (thr : ℚ)
    (m : String) :
    (create_alert now db d thr m).alerts =
      if (db.alerts.find? (fun a => a.sensor_id == d.sensor_id &&
            decide (now - 3600 < a.timestamp))).isSome then db.alerts
      else db.alerts ++
        [{ sensor_id := d.sensor_id, timestamp := now, value := d.value
         , threshold := thr, message := m, was_notified := 1 }] := by
  unfold create_alert
  cases h : db.alerts.find? (fun a => a.sensor_id == d.sensor_id &&
      decide (now - 3600 < a.timestamp)) <;> simp [h]

lemma check_alert_conditions_eq_evaluate (s : Settings) (now : Int) (db : Db)
    (d : SensorData) :
    check_alert_conditions s now db d =
      match evaluate s d.sensor_type d.value with
      | none => db
      | some c => create_alert now db d c.threshold c.message := by
  unfold check_alert_conditions evaluate
  split_ifs <;> rfl

lemma check_alert_conditions_sensors (s : Settings) (now : Int) (db : Db)
    (d : SensorData) :
    (check_alert_conditions s now db d).sensors = db.sensors := by
  rw [check_alert_conditions_eq_evaluate]
  cases evaluate s d.sensor_type d.value <;> simp [create_alert_sensors]

lemma check_alert_conditions_readings (s : Settings) (now : Int) (db : Db)
    (d : SensorData) :
    (check_alert_conditions s now db d).readings = db.readings := by
  rw [check_alert_conditions_eq_evaluate]
  cases evaluate s d.sensor_type d.value <;> simp [create_alert_readings]

lemma check_alert_conditions_alerts (s : Settings) (now : Int) (db : Db)
    (d : SensorData) :
    (check_alert_conditions s now db d).alerts =
      match evaluate s d.sensor_type d.value with
      | none => db.alerts
      | some c =>
          if (db.alerts.find? (fun a => a.sensor_id == d.sensor_id &&
                decide (now - 3600 < a.timestamp))).isSome then db.alerts
          else db.alerts ++
            [{ sensor_id := d.sensor_id, timestamp := now, value := d.value
             , threshold := c.threshold, message := c.message
             , was_notified := 1 }] := by
  rw [check_alert_conditions_eq_evaluate]
  cases evaluate s d.sensor_type d.value <;> simp [create_alert_alerts]

lemma process_sensor_data_sensors (s : Settings) (ao ko : Bool) (now : Int)
    (db : Db) (d : SensorData) :
    (process_sensor_data s ao ko now db d).db.sensors =
      match db.sensors.find? (fun s0 => s0.sensor_id == d.sensor_id) with
      | some _ => db.sensors
      | none => db.sensors ++
          [{ sensor_id := d.sensor_id, name := d.name
           , location := d.location, sensor_type := d.sensor_type }] := by
  unfold process_sensor_data
  cases h : db.sensors.find? (fun s0 => s0.sensor_id == d.sensor_id) <;>
    cases ao <;> cases ko <;> simp [h, check_alert_conditions_sensors]

lemma process_sensor_data_readings (s : Settings) (ao ko : Bool) (now : Int)
    (db : Db) (d : SensorData) :
    (process_sensor_data s ao ko now db d).db.readings =
      if ao then db.readings ++
        [{ sensor_id := d.sensor_id, timestamp := d.timestamp.getD now
         , value := d.value, unit := d.unit }]
      else db.readings := by
  unfold process_sensor_data
  cases h : db.sensors.find? (fun s0 => s0.sensor_id == d.sensor_id) <;>
    cases ao <;> cases ko <;> simp [h, check_alert_conditions_readings]

lemma process_sensor_data_alerts (s : Settings) (ao ko : Bool) (now : Int)
    (db : Db) (d : SensorData) :
    (process_sensor_data s ao ko now db d).db.alerts =
      if ao && ko then
        match evaluate s d.sensor_type d.value with
        | none => db.alerts
        | some c =>
            if (db.alerts.find? (fun a => a.sensor_id == d.sensor_id &&
                  decide (now - 3600 < a.timestamp))).isSome then db.alerts
            else db.alerts ++
              [{ sensor_id := d.sensor_id, timestamp := now, value := d.value
               , threshold := c.threshold, message := c.message
               , was_notified := 1 }]
      else db.alerts := by
  unfold process_sensor_data
  cases h : db.sensors.find? (fun s0 => s0.sensor_id == d.sensor_id) <;>
    cases ao <;> cases ko <;>
    simp [h, check_alert_conditions_alerts]

lemma process_sensor_data_raised (s : Settings) (ao ko : Bool) (now : Int)
    (db : Db) (d : SensorData) :
    (process_sensor_data s ao ko now db d).raised = false := by
  unfold process_sensor_data
  cases h : db.sensors.find? (fun s0 => s0.sensor_id == d.sensor_id) <;>
    cases ao <;> cases ko <;> simp [h]

lemma process_sensor_data_log (s : Settings) (ao ko : Bool) (now : Int)
    (db : Db) (d : SensorData) :
    (process_sensor_data s ao ko now db d).log =
      if ao then (if ko then [] else ["Error checking alert conditions"])
      else ["Error storing sensor data"] := by
  unfold process_sensor_data
  cases h : db.sensors.find? (fun s0 => s0.sensor_id == d.sensor_id) <;>
    cases ao <;> cases ko <;> simp [h]

lemma mentionsInOrder_lowTemperatureMsg (v mn : ℚ) :
    mentionsInOrder "Low" v mn (lowTemperatureMsg v mn) := by
  refine ⟨" temperature alert: ", "°C is below threshold of ", "°C", ?_⟩
  have h : ("Low" : String) ++ " temperature alert: " = "Low temperature alert: " := by decide
  rw [lowTemperatureMsg, h]

lemma mentionsInOrder_highTemperatureMsg (v mx : ℚ) :
    mentionsInOrder "High" v mx (highTemperatureMsg v mx) := by
  refine ⟨" temperature alert: ", "°C is above threshold of ", "°C", ?_⟩
  have h : ("High" : String) ++ " temperature alert: " = "High temperature alert: " := by decide
  rw [highTemperatureMsg, h]

lemma mentionsInOrder_lowHumidityMsg (v mn : ℚ) :
    mentionsInOrder "Low" v mn (lowHumidityMsg v mn) := by
  refine ⟨" humidity alert: ", "% is below threshold of ", "%", ?_⟩
  have h : ("Low" : String) ++ " humidity alert: " = "Low humidity alert: " := by decide
  rw [lowHumidityMsg, h]

lemma mentionsInOrder_highHumidityMsg (v mx : ℚ) :
    mentionsInOrder "High" v mx (highHumidityMsg v mx) := by
  refine ⟨" humidity alert: ", "% is above threshold of ", "%", ?_⟩
  have h : ("High" : String) ++ " humidity alert: " = "High humidity alert: " := by decide
  rw [highHumidityMsg, h]

lemma evaluate_temperature (s : Settings) (v : ℚ) :
    evaluate s "temperature" v =
      if v < s.TEMPERATURE_MIN then
        some { threshold := s.TEMPERATURE_MIN
             , message := lowTemperatureMsg v s.TEMPERATURE_MIN }
      else if v > s.TEMPERATURE_MAX then
        some { threshold := s.TEMPERATURE_MAX
             , message := highTemperatureMsg v s.TEMPERATURE_MAX }
      else none := by
  rw [evaluate, if_pos rfl]

lemma evaluate_humidity (s : Settings) (v : ℚ) :
    evaluate s "humidity" v =
      if v < s.HUMIDITY_MIN then
        some { threshold := s.HUMIDITY_MIN
             , message := lowHumidityMsg v s.HUMIDITY_MIN }
      else if v > s.HUMIDITY_MAX then
        some { threshold := s.HUMIDITY_MAX
             , message := highHumidityMsg v s.HUMIDITY_MAX }
      else none := by
  rw [evaluate, if_neg (by decide : ¬("humidity" = "temperature")), if_pos rfl]

lemma evaluate_of_unknown (s : Settings) (ty : String) (v : ℚ)
    (h1 : ty ≠ "temperature") (h2 : ty ≠ "humidity") :
    evaluate s ty v = none := by
  rw [evaluate, if_neg h1, if_neg h2]

/-- C1: for a reading whose sensor-type has a configured (min, max)
threshold pair, `evaluate` produces exactly one candidate iff value < min
or value > max; a value equal to a bound or strictly between the bounds
produces none; the candidate's message states direction (Low/High), the
observed value, and the crossed threshold in that order (for the high
direction the sanity condition min ≤ max of a threshold pair is needed,
because the low branch is checked first).  For a sensor-type with no
configured thresholds, no candidate is produced (and, the evaluator being
a total function, no failure occurs). -/
theorem C1_alert_evaluator (s : Settings) (ty : String) (v : ℚ) :
    (∀ mn mx : ℚ, threshold_table s ty = some (mn, mx) →
      ((∃ c, evaluate s ty v = some c) ↔ (v < mn ∨ mx < v)) ∧
      (mn ≤ v → v ≤ mx → evaluate s ty v = none) ∧
      (v < mn → ∃ c, evaluate s ty v = some c ∧ c.threshold = mn ∧
        mentionsInOrder "Low" v mn c.message) ∧
      (mn ≤ mx → mx < v → ∃ c, evaluate s ty v = some c ∧ c.threshold = mx ∧
        mentionsInOrder "High" v mx c.message)) ∧
    (threshold_table s ty = none → evaluate s ty v = none) := by
  by_cases h1 : ty = "temperature"
  · subst h1
    constructor
    · intro mn mx heq
      rw [threshold_table, if_pos rfl, Option.some.injEq, Prod.mk.injEq] at heq
      obtain ⟨rfl, rfl⟩ := heq
      rw [evaluate_temperature]
      refine ⟨?_, ?_, ?_, ?_⟩
      · by_cases hlo : v < s.TEMPERATURE_MIN
        · simp [hlo]
        · by_cases hhi : v > s.TEMPERATURE_MAX <;> simp [hlo, hhi]
      · intro hge hle
        rw [if_neg (not_lt.mpr hge), if_neg (not_lt.mpr hle)]
      · intro hlo
        rw [if_pos hlo]
        exact ⟨_, rfl, rfl, mentionsInOrder_lowTemperatureMsg v _⟩
      · intro hmnmx hhi
        rw [if_neg (not_lt.mpr (le_trans hmnmx hhi.le)), if_pos hhi]
        exact ⟨_, rfl, rfl, mentionsInOrder_highTemperatureMsg v _⟩
    · intro heq
      rw [threshold_table, if_pos rfl] at heq
      exact absurd heq (by simp)
  · by_cases h2 : ty = "humidity"
    · subst h2
      constructor
      · intro mn mx heq
        rw [threshold_table, if_neg h1, if_pos rfl, Option.some.injEq,
          Prod.mk.injEq] at heq
        obtain ⟨rfl, rfl⟩ := heq
        rw [evaluate_humidity]
        refine ⟨?_, ?_, ?_, ?_⟩
        · by_cases hlo : v < s.HUMIDITY_MIN
          · simp [hlo]
          · by_cases hhi : v > s.HUMIDITY_MAX <;> simp [hlo, hhi]
        · intro hge hle
          rw [if_neg (not_lt.mpr hge), if_neg (not_lt.mpr hle)]
        · intro hlo
          rw [if_pos hlo]
          exact ⟨_, rfl, rfl, mentionsInOrder_lowHumidityMsg v _⟩
        · intro hmnmx hhi
          rw [if_neg (not_lt.mpr (le_trans hmnmx hhi.le)), if_pos hhi]
          exact ⟨_, rfl, rfl, mentionsInOrder_highHumidityMsg v _⟩
      · intro heq
        rw [threshold_table, if_neg h1, if_pos rfl] at heq
        exact absurd heq (by simp)
    · constructor
      · intro mn mx heq
        rw [threshold_table, if_neg h1, if_neg h2] at heq
        exact absurd heq (by simp)
      · intro _
        exact evaluate_of_unknown s ty v h1 h2

/-- Witness for C1 at the default thresholds: a temperature reading of 35
triggers, yields the high-threshold 30 candidate with a well-ordered
message. -/
theorem C1_alert_evaluator_witness :
    ((∃ c, evaluate defaultSettings "temperature" 35 = some c) ↔
      ((35 : ℚ) < 10 ∨ (30 : ℚ) < 35)) ∧
    (∃ c, evaluate defaultSettings "temperature" 35 = some c ∧
      c.threshold = 30 ∧ mentionsInOrder "High" 35 30 c.message) := by
  have h := C1_alert_evaluator defaultSettings "temperature" 35
  exact ⟨(h.1 10 30 (by decide)).1, (h.1 10 30 (by decide)).2.2.2 (by decide) (by decide)⟩

lemma alertSpacingOk_process (s : Settings) (ao ko : Bool) (now : Int)
    (db : Db) (d : SensorData) (h : alertSpacingOk db) :
    alertSpacingOk (process_sensor_data s ao ko now db d).db := by
  unfold alertSpacingOk at h ⊢
  rw [process_sensor_data_alerts]
  cases ao <;> cases ko <;> simp only [Bool.and_self, Bool.and_false,
    Bool.false_and, Bool.true_and, if_false, if_true, Bool.and_true]
  · exact h
  · exact h
  · exact h
  · cases hev : evaluate s d.sensor_type d.value with
    | none => exact h
    | some c =>
        simp only
        cases hf : db.alerts.find? (fun a => a.sensor_id == d.sensor_id &&
            decide (now - 3600 < a.timestamp)) with
        | some a => simpa using h
        | none =>
            simp only [Option.isSome_none, Bool.false_eq_true, if_false]
            rw [List.pairwise_append]
            refine ⟨h, by simp, ?_⟩
            intro a ha b hb hsid
            simp only [List.mem_singleton] at hb
            subst hb
            have hp := List.find?_eq_none.mp hf a ha
            simp only [Bool.and_eq_true, beq_iff_eq, decide_eq_true_eq,
              not_and] at hp
            have hts : a.timestamp ≤ now - 3600 := not_lt.mp (hp (by simpa using hsid))
            have : (3600 : Int) ≤ now - a.timestamp := by linarith
            calc (3600 : Int) ≤ now - a.timestamp := this
              _ ≤ |now - a.timestamp| := le_abs_self _
              _ = |a.timestamp - now| := abs_sub_comm _ _

lemma process_alerts_fresh (s : Settings) (now : Int) (db : Db)
    (d : SensorData) (hc : (evaluate s d.sensor_type d.value).isSome)
    (hclean : ∀ a ∈ db.alerts, a.sensor_id ≠ d.sensor_id) :
    ∃ c, evaluate s d.sensor_type d.value = some c ∧
      (process_sensor_data s true true now db d).db.alerts = db.alerts ++
        [{ sensor_id := d.sensor_id, timestamp := now, value := d.value
         , threshold := c.threshold, message := c.message
         , was_notified := 1 }] := by
  obtain ⟨c, hev⟩ := Option.isSome_iff_exists.mp hc
  refine ⟨c, hev, ?_⟩
  rw [process_sensor_data_alerts]
  simp only [Bool.and_self, if_true, hev]
  have hf : db.alerts.find? (fun a => a.sensor_id == d.sensor_id &&
      decide (now - 3600 < a.timestamp)) = none := by
    rw [List.find?_eq_none]
    intro a ha
    simp only [Bool.and_eq_true, beq_iff_eq, decide_eq_true_eq, not_and]
    intro hsid
    exact absurd hsid (hclean a ha)
  rw [hf]
  simp

/-- C2: the dedup invariant (no two same-sensor alerts less than the
1-hour cooldown window apart) is preserved by every ingestion; two
alert-worthy readings for the same sensor less than the window apart
produce one stored alert, with the second suppressed; more than the window
apart, both produce stored alerts. -/
theorem C2_cooldown_dedup :
    (∀ (s : Settings) (ao ko : Bool) (now : Int) (db : Db) (d : SensorData),
      alertSpacingOk db → alertSpacingOk (process_sensor_data s ao ko now db d).db) ∧
    (∀ (s : Settings) (t1 t2 : Int) (db : Db) (d1 d2 : SensorData),
      d2.sensor_id = d1.sensor_id →
      (evaluate s d1.sensor_type d1.value).isSome →
      (evaluate s d2.sensor_type d2.value).isSome →
      (∀ a ∈ db.alerts, a.sensor_id ≠ d1.sensor_id) →
      t2 - t1 < 3600 →
      (alertsFor (process_sensor_data s true true t1 db d1).db d1.sensor_id).length = 1 ∧
      (process_sensor_data s true true t2
          (process_sensor_data s true true t1 db d1).db d2).db.alerts =
        (process_sensor_data s true true t1 db d1).db.alerts) ∧
    (∀ (s : Settings) (t1 t2 : Int) (db : Db) (d1 d2 : SensorData),
      d2.sensor_id = d1.sensor_id →
      (evaluate s d1.sensor_type d1.value).isSome →
      (evaluate s d2.sensor_type d2.value).isSome →
      (∀ a ∈ db.alerts, a.sensor_id ≠ d1.sensor_id) →
      3600 < t2 - t1 →
      (alertsFor (process_sensor_data s true true t2
          (process_sensor_data s true true t1 db d1).db d2).db d1.sensor_id).length = 2) := by
  refine ⟨alertSpacingOk_process, ?_, ?_⟩
  · intro s t1 t2 db d1 d2 hsid hc1 hc2 hclean hlt
    obtain ⟨c1, hev1, halerts1⟩ := process_alerts_fresh s t1 db d1 hc1 hclean
    constructor
    · unfold alertsFor
      rw [halerts1, List.filter_append]
      have hnil : db.alerts.filter (fun a => a.sensor_id == d1.sensor_id) = [] := by
        rw [List.filter_eq_nil_iff]
        intro a ha
        simpa using hclean a ha
      rw [hnil]
      simp
    · rw [process_sensor_data_alerts]
      obtain ⟨c2, hev2⟩ := Option.isSome_iff_exists.mp hc2
      simp only [Bool.and_self, if_true, hev2]
      have hf : ((process_sensor_data s true true t1 db d1).db.alerts.find?
          (fun a => a.sensor_id == d2.sensor_id &&
            decide (t2 - 3600 < a.timestamp))).isSome = true := by
        rw [List.find?_isSome]
        refine ⟨_, by rw [halerts1]; exact List.mem_append_right _ (List.mem_singleton.mpr rfl), ?_⟩
        simp only [Bool.and_eq_true, beq_iff_eq, decide_eq_true_eq]
        exact ⟨hsid.symm, by linarith⟩
      rw [if_pos hf]
  · intro s t1 t2 db d1 d2 hsid hc1 hc2 hclean hgt
    obtain ⟨c1, hev1, halerts1⟩ := process_alerts_fresh s t1 db d1 hc1 hclean
    obtain ⟨c2, hev2⟩ := Option.isSome_iff_exists.mp hc2
    have halerts2 : (process_sensor_data s true true t2
        (process_sensor_data s true true t1 db d1).db d2).db.alerts =
        (process_sensor_data s true true t1 db d1).db.alerts ++
        [{ sensor_id := d2.sensor_id, timestamp := t2, value := d2.value
         , threshold := c2.threshold, message := c2.message
         , was_notified := 1 }] := by
      rw [process_sensor_data_alerts]
      simp only [Bool.and_self, if_true, hev2]
      have hf : (process_sensor_data s true true t1 db d1).db.alerts.find?
          (fun a => a.sensor_id == d2.sensor_id &&
            decide (t2 - 3600 < a.timestamp)) = none := by
        rw [List.find?_eq_none]
        intro a ha
        rw [halerts1] at ha
        rcases List.mem_append.mp ha with hold | hnew
        · simp only [Bool.and_eq_true, beq_iff_eq, decide_eq_true_eq, not_and]
          intro ha2
          exact absurd (ha2.trans hsid) (hclean a hold)
        · simp only [List.mem_singleton] at hnew
          subst hnew
          simp only [Bool.and_eq_true, beq_iff_eq, decide_eq_true_eq, not_and]
          intro _
          linarith
      rw [hf]
      simp
    unfold alertsFor
    rw [halerts2, halerts1, List.filter_append, List.filter_append]
    have hnil : db.alerts.filter (fun a => a.sensor_id == d1.sensor_id) = [] := by
      rw [List.filter_eq_nil_iff]
      intro a ha
      simpa using hclean a ha
    rw [hnil]
    simp [hsid]

/-- Witness for C2 with concrete runs: a 35-degree temperature reading at
t = 0 stores one alert; a second at t = 1000 is suppressed; at t = 4000 a
second alert is stored. -/
theorem C2_cooldown_dedup_witness :
    (alertsFor (process_sensor_data defaultSettings true true 0 Db.empty
        { sensor_id := "temperature_den", name := "temperature_den"
        , location := "unknown", sensor_type := "temperature"
        , value := 35, unit := "C", timestamp := some 0 }).db
        "temperature_den").length = 1 ∧
    (process_sensor_data defaultSettings true true 1000
        (process_sensor_data defaultSettings true true 0 Db.empty
          { sensor_id := "temperature_den", name := "temperature_den"
          , location := "unknown", sensor_type := "temperature"
          , value := 35, unit := "C", timestamp := some 0 }).db
        { sensor_id := "temperature_den", name := "temperature_den"
        , location := "unknown", sensor_type := "temperature"
        , value := 35, unit := "C", timestamp := some 1000 }).db.alerts =
      (process_sensor_data defaultSettings true true 0 Db.empty
        { sensor_id := "temperature_den", name := "temperature_den"
        , location := "unknown", sensor_type := "temperature"
        , value := 35, unit := "C", timestamp := some 0 }).db.alerts ∧
    (alertsFor (process_sensor_data defaultSettings true true 4000
        (process_sensor_data defaultSettings true true 0 Db.empty
          { sensor_id := "temperature_den", name := "temperature_den"
          , location := "unknown", sensor_type := "temperature"
          , value := 35, unit := "C", timestamp := some 0 }).db
        { sensor_id := "temperature_den", name := "temperature_den"
        , location := "unknown", sensor_type := "temperature"
        , value := 35, unit := "C", timestamp := some 4000 }).db
        "temperature_den").length = 2 := by
  have h2 := C2_cooldown_dedup.2.1 defaultSettings 0 1000 Db.empty
    { sensor_id := "temperature_den", name := "temperature_den"
    , location := "unknown", sensor_type := "temperature"
    , value := 35, unit := "C", timestamp := some 0 }
    { sensor_id := "temperature_den", name := "temperature_den"
    , location := "unknown", sensor_type := "temperature"
    , value := 35, unit := "C", timestamp := some 1000 }
    rfl (by decide) (by decide) (by intro a ha; simp [Db.empty] at ha) (by decide)
  have h3 := C2_cooldown_dedup.2.2 defaultSettings 0 4000 Db.empty
    { sensor_id := "temperature_den", name := "temperature_den"
    , location := "unknown", sensor_type := "temperature"
    , value := 35, unit := "C", timestamp := some 0 }
    { sensor_id := "temperature_den", name := "temperature_den"
    , location := "unknown", sensor_type := "temperature"
    , value := 35, unit := "C", timestamp := some 4000 }
    rfl (by decide) (by decide) (by intro a ha; simp [Db.empty] at ha) (by decide)
  exact ⟨h2.1, h2.2, h3⟩

/-- C3 counterexample: with the storage layer down (`appendOk = false`),
the gateway catches the error instead of surfacing it to its caller: the
call returns normally (`raised = false`), printing the error; evaluation
of the claim at this concrete input shows the "error is surfaced" part
false (the abort part does hold: nothing is stored, no alert evaluated).
"Surfaced" is read as in the spec's error-handling section: propagated to
the caller of `ingest`, not silently swallowed inside it. -/
theorem C3_counterexample :
    (process_sensor_data defaultSettings false true 7 Db.empty
      { sensor_id := "temperature_den", name := "temperature_den"
      , location := "unknown", sensor_type := "temperature"
      , value := 35, unit := "C", timestamp := some 7 }).raised = false ∧
    (process_sensor_data defaultSettings false true 7 Db.empty
      { sensor_id := "temperature_den", name := "temperature_den"
      , location := "unknown", sensor_type := "temperature"
      , value := 35, unit := "C", timestamp := some 7 }).log =
      ["Error storing sensor data"] ∧
    (process_sensor_data defaultSettings false true 7 Db.empty
      { sensor_id := "temperature_den", name := "temperature_den"
      , location := "unknown", sensor_type := "temperature"
      , value := 35, unit := "C", timestamp := some 7 }).db.readings = [] ∧
    (process_sensor_data defaultSettings false true 7 Db.empty
      { sensor_id := "temperature_den", name := "temperature_den"
      , location := "unknown", sensor_type := "temperature"
      , value := 35, unit := "C", timestamp := some 7 }).db.alerts = [] := by
  decide

/-- C3 as amended: if the append fails, the remaining steps are aborted
(no reading stored, no alert evaluated) and the error is logged, but the
gateway returns normally — the error is not propagated to its caller; if
the alert stage fails after a successful append, the persisted reading is
not rolled back and ingestion reports no failure. -/
theorem C3_gateway_failure_isolation (s : Settings) (ko : Bool) (now : Int)
    (db : Db) (d : SensorData) :
    ((process_sensor_data s false ko now db d).db.readings = db.readings ∧
     (process_sensor_data s false ko now db d).db.alerts = db.alerts ∧
     (process_sensor_data s false ko now db d).raised = false ∧
     (process_sensor_data s false ko now db d).log =
       ["Error storing sensor data"]) ∧
    ((process_sensor_data s true false now db d).db.readings =
       db.readings ++
         [{ sensor_id := d.sensor_id, timestamp := d.timestamp.getD now
          , value := d.value, unit := d.unit }] ∧
     (process_sensor_data s true false now db d).raised = false ∧
     (process_sensor_data s true false now db d).log =
       ["Error checking alert conditions"]) := by
  refine ⟨⟨?_, ?_, ?_, ?_⟩, ?_, ?_, ?_⟩ <;>
    simp [process_sensor_data_readings, process_sensor_data_alerts,
      process_sensor_data_raised, process_sensor_data_log]

/-- C4 counterexample: an HTTP ingestion with the storage layer down
returns normally — the storage error is not surfaced to the caller of the
ingest path (`raised = false`); it is only printed. -/
theorem C4_counterexample :
    (add_sensor_data defaultSettings false true 7 Db.empty
      { sensor_id := "temperature_den", value := 35, unit := "C" }).raised
      = false ∧
    (add_sensor_data defaultSettings false true 7 Db.empty
      { sensor_id := "temperature_den", value := 35, unit := "C" }).log =
      ["Error storing sensor data"] := by
  decide

/-- C4 as amended: when the append fails during an ingestion, the error is
logged (not silently dropped) but is not propagated to the caller; the
gateway aborts the remaining steps for that reading (nothing stored) and
keeps serving subsequent readings: a later ingestion with storage back up
appends its reading normally. -/
theorem C4_storage_unavailability (s : Settings) (ko ko2 : Bool)
    (now now2 : Int) (db : Db) (data data2 : SensorDataIn) :
    (add_sensor_data s false ko now db data).raised = false ∧
    "Error storing sensor data" ∈ (add_sensor_data s false ko now db data).log ∧
    (add_sensor_data s false ko now db data).db.readings = db.readings ∧
    (add_sensor_data s true ko2 now2
        (add_sensor_data s false ko now db data).db data2).db.readings =
      (add_sensor_data s false ko now db data).db.readings ++
        [{ sensor_id := data2.sensor_id, timestamp := now2
         , value := data2.value, unit := data2.unit }] := by
  refine ⟨?_, ?_, ?_, ?_⟩ <;>
    simp [add_sensor_data, add_sensor_data_payload,
      process_sensor_data_readings, process_sensor_data_raised,
      process_sensor_data_log]

/-- C5 counterexample: two concrete bus messages on which the claim
fails.  A payload missing the required `value` field on a well-formed
topic is NOT dropped — `payload.get("value", 0)` defaults it to 0 and a
Reading is stored (value 0, and here even an alert fires); and a topic
with fewer than 3 segments is dropped with an empty log — no error is
logged. -/
theorem C5_counterexample :
    (on_message defaultSettings true true 0 Db.empty
      "sensors/temperature/living_room" (.obj none none)).db.readings =
      [{ sensor_id := "temperature_living_room", timestamp := 0
       , value := 0, unit := "" }] ∧
    (on_message defaultSettings true true 0 Db.empty
      "sensors/temperature" (.obj (some 35) none)).log = [] := by
  decide

/-- C5 as amended: a payload that is not valid JSON is dropped with a
logged error, no state change and no exception; a topic with fewer than 3
segments is dropped silently — no state change, no exception, but also no
logged error; a payload missing the required `value` field is NOT dropped:
the value defaults to 0 and a Reading with value 0 is stored. -/
theorem C5_malformed_message_handling :
    (∀ (s : Settings) (ao ko : Bool) (now : Int) (db : Db) (topic : String),
      on_message s ao ko now db topic .malformed =
        { db := db, log := ["Error processing MQTT message"], raised := false }) ∧
    (∀ (s : Settings) (ao ko : Bool) (now : Int) (db : Db) (topic : String)
      (v : Option ℚ) (u : Option String),
      (pySplit '/' topic).length < 3 →
      on_message s ao ko now db topic (.obj v u) =
        { db := db, log := [], raised := false }) ∧
    (∀ (s : Settings) (ko : Bool) (now : Int) (db : Db) (topic : String)
      (u : Option String),
      3 ≤ (pySplit '/' topic).length →
      (on_message s true ko now db topic (.obj none u)).db.readings =
        db.readings ++
          [{ sensor_id := (pySplit '/' topic).getD 1 "" ++ "_" ++
               (pySplit '/' topic).getD 2 ""
           , timestamp := now, value := 0, unit := u.getD "" }]) := by
  refine ⟨?_, ?_, ?_⟩
  · intro s ao ko now db topic
    rfl
  · intro s ao ko now db topic v u hlen
    simp only [on_message]
    rw [if_neg (not_le.mpr hlen)]
  · intro s ko now db topic u hlen
    simp only [on_message]
    rw [if_pos hlen]
    simp [mqtt_sensor_data, process_sensor_data_readings]

/-- Witness for C5's amended statement at concrete messages: a two-segment
topic is dropped with an empty log, and a valueless payload on a
three-segment topic stores a value-0 reading. -/
theorem C5_malformed_message_handling_witness :
    on_message defaultSettings true true 5 Db.empty "sensors/humidity"
      (.obj (some 50) none) = { db := Db.empty, log := [], raised := false } ∧
    (on_message defaultSettings true true 5 Db.empty
      "sensors/humidity/kitchen" (.obj none (some "%"))).db.readings =
      Db.empty.readings ++
        [{ sensor_id := (pySplit '/' "sensors/humidity/kitchen").getD 1 "" ++
             "_" ++ (pySplit '/' "sensors/humidity/kitchen").getD 2 ""
         , timestamp := 5, value := 0, unit := "%" }] := by
  constructor
  · exact C5_malformed_message_handling.2.1 defaultSettings true true 5
      Db.empty "sensors/humidity" (some 50) none (by decide)
  · exact C5_malformed_message_handling.2.2 defaultSettings true 5
      Db.empty "sensors/humidity/kitchen" (some "%") (by decide)

lemma process_alerts_mem (s : Settings) (ao ko : Bool) (now : Int) (db : Db)
    (d : SensorData) :
    ∀ a ∈ (process_sensor_data s ao ko now db d).db.alerts,
      a ∈ db.alerts ∨ a.was_notified = 1 := by
  intro a ha
  rw [process_sensor_data_alerts] at ha
  cases hb : ao && ko with
  | false => rw [hb, if_neg (by simp)] at ha; exact Or.inl ha
  | true =>
      rw [hb, if_pos rfl] at ha
      cases hev : evaluate s d.sensor_type d.value with
      | none => rw [hev] at ha; exact Or.inl ha
      | some c =>
          rw [hev] at ha
          simp only at ha
          by_cases hf : (db.alerts.find? (fun a => a.sensor_id == d.sensor_id &&
              decide (now - 3600 < a.timestamp))).isSome
          · rw [if_pos hf] at ha; exact Or.inl ha
          · rw [if_neg hf] at ha
            rcases List.mem_append.mp ha with hold | hnew
            · exact Or.inl hold
            · simp only [List.mem_singleton] at hnew
              subst hnew
              exact Or.inr rfl

/-- C6: every alert that enters the store through an ingestion has its
notified flag already flipped to 1 — the false→true transition happens
inside the same `create_alert` call that stores it, unconditionally (the
notification call is stubbed out in the source, so no notification outcome
can prevent the flip); consequently, if every stored alert was notified
before an ingestion, the same holds after it, so after any sequence of
ingestions from an empty store every Alert present has its flag set. -/
theorem C6_notified_flag :
    (∀ (s : Settings) (ao ko : Bool) (now : Int) (db : Db) (d : SensorData),
      ∀ a ∈ (process_sensor_data s ao ko now db d).db.alerts,
        a ∉ db.alerts → a.was_notified = 1) ∧
    (∀ (s : Settings) (ao ko : Bool) (now : Int) (db : Db) (d : SensorData),
      (∀ a ∈ db.alerts, a.was_notified = 1) →
      ∀ a ∈ (process_sensor_data s ao ko now db d).db.alerts,
        a.was_notified = 1) := by
  constructor
  · intro s ao ko now db d a ha hnew
    rcases process_alerts_mem s ao ko now db d a ha with hold | hflag
    · exact absurd hold hnew
    · exact hflag
  · intro s ao ko now db d hinv a ha
    rcases process_alerts_mem s ao ko now db d a ha with hold | hflag
    · exact hinv a hold
    · exact hflag

/-- Witness for C6: after ingesting an alert-worthy reading into the empty
store, every stored alert has its notified flag equal to 1. -/
theorem C6_notified_flag_witness :
    ((process_sensor_data defaultSettings true true 0 Db.empty
      { sensor_id := "temperature_den", name := "temperature_den"
      , location := "unknown", sensor_type := "temperature"
      , value := 35, unit := "C", timestamp := some 0 }).db.alerts.all
      (fun a => a.was_notified == 1)) = true := by
  rw [List.all_eq_true]
  intro a ha
  have h := C6_notified_flag.2 defaultSettings true true 0 Db.empty
    { sensor_id := "temperature_den", name := "temperature_den"
    , location := "unknown", sensor_type := "temperature"
    , value := 35, unit := "C", timestamp := some 0 }
    (by intro a ha; simp [Db.empty] at ha) a ha
  simpa using h

lemma on_message_topic3 (s : Settings) (ao ko : Bool) (now : Int) (db : Db)
    (topic : String) (v : Option ℚ) (u : Option String) (p0 p1 p2 : String)
    (htopic : pySplit '/' topic = [p0, p1, p2]) :
    on_message s ao ko now db topic (.obj v u) =
      process_sensor_data s ao ko now db (mqtt_sensor_data now p1 p2 v u) := by
  simp only [on_message, htopic]
  rw [if_pos (by simp)]
  rfl

lemma process_sensor_data_congr (s : Settings) (ao ko : Bool) (now : Int)
    (db : Db) (d1 d2 : SensorData) (hid : d1.sensor_id = d2.sensor_id)
    (hty : d1.sensor_type = d2.sensor_type) (hv : d1.value = d2.value)
    (hu : d1.unit = d2.unit) (hts : d1.timestamp = d2.timestamp) :
    (process_sensor_data s ao ko now db d1).db.readings =
      (process_sensor_data s ao ko now db d2).db.readings ∧
    (process_sensor_data s ao ko now db d1).db.alerts =
      (process_sensor_data s ao ko now db d2).db.alerts ∧
    (process_sensor_data s ao ko now db d1).log =
      (process_sensor_data s ao ko now db d2).log ∧
    (process_sensor_data s ao ko now db d1).raised =
      (process_sensor_data s ao ko now db d2).raised ∧
    (process_sensor_data s ao ko now db d1).db.sensors.map
        (fun s0 => (s0.sensor_id, s0.sensor_type)) =
      (process_sensor_data s ao ko now db d2).db.sensors.map
        (fun s0 => (s0.sensor_id, s0.sensor_type)) ∧
    ((db.sensors.find? (fun s0 => s0.sensor_id == d1.sensor_id)).isSome →
      (process_sensor_data s ao ko now db d1).db.sensors =
        (process_sensor_data s ao ko now db d2).db.sensors) := by
  refine ⟨?_, ?_, ?_, ?_, ?_, ?_⟩
  · rw [process_sensor_data_readings, process_sensor_data_readings, hid, hv,
      hu, hts]
  · rw [process_sensor_data_alerts, process_sensor_data_alerts, hid, hty, hv]
  · rw [process_sensor_data_log, process_sensor_data_log]
  · rw [process_sensor_data_raised, process_sensor_data_raised]
  · rw [process_sensor_data_sensors, process_sensor_data_sensors, hid]
    cases hf : db.sensors.find? (fun s0 => s0.sensor_id == d2.sensor_id) with
    | some _ => rfl
    | none => simp [hid, hty]
  · intro hsome
    rw [hid] at hsome
    rw [process_sensor_data_sensors, process_sensor_data_sensors, hid]
    cases hf : db.sensors.find? (fun s0 => s0.sensor_id == d2.sensor_id) with
    | some _ => rfl
    | none => rw [hf] at hsome; simp at hsome

/-- C7 counterexample: the same canonical reading (identifier
`temperature_den`, value 35, unit C, same handling time) ingested through
the HTTP path and through the bus path leaves DIFFERENT registry states on
a fresh database: the two transports derive different fallback name and
location metadata for the auto-created sensor row, so the claimed
identity of registry effects fails. -/
theorem C7_counterexample :
    (add_sensor_data defaultSettings true true 0 Db.empty
      { sensor_id := "temperature_den", value := 35, unit := "C" }).db.sensors ≠
    (on_message defaultSettings true true 0 Db.empty "sensors/temperature/den"
      (.obj (some 35) (some "C"))).db.sensors := by
  decide

/-- C7 as amended: for the same canonical reading over a sensor identifier
of the form `<type>_<location>` (with the identifier splitting back to the
topic's type, and any registered sensor row for it carrying that type),
the HTTP path and the bus path produce identical reading-store effects,
alert effects, logs and exception behavior, and registry effects that
agree on identifier and sensor-type; when the sensor is already
registered, the registry states agree completely.  The transports diverge
only in the fallback name and location metadata of a newly auto-created
sensor row (see the counterexample). -/
theorem C7_transport_equivalence (s : Settings) (ao ko : Bool) (now : Int)
    (db : Db) (ty loc topic : String) (v : ℚ) (u : String)
    (hsplit : (pySplit '_' (ty ++ "_" ++ loc)).headD "" = ty)
    (htopic : pySplit '/' topic = ["sensors", ty, loc])
    (hreg : ∀ s0 ∈ db.sensors, s0.sensor_id = ty ++ "_" ++ loc →
      s0.sensor_type = ty) :
    (add_sensor_data s ao ko now db
        { sensor_id := ty ++ "_" ++ loc, value := v, unit := u }).db.readings =
      (on_message s ao ko now db topic (.obj (some v) (some u))).db.readings ∧
    (add_sensor_data s ao ko now db
        { sensor_id := ty ++ "_" ++ loc, value := v, unit := u }).db.alerts =
      (on_message s ao ko now db topic (.obj (some v) (some u))).db.alerts ∧
    (add_sensor_data s ao ko now db
        { sensor_id := ty ++ "_" ++ loc, value := v, unit := u }).log =
      (on_message s ao ko now db topic (.obj (some v) (some u))).log ∧
    (add_sensor_data s ao ko now db
        { sensor_id := ty ++ "_" ++ loc, value := v, unit := u }).raised =
      (on_message s ao ko now db topic (.obj (some v) (some u))).raised ∧
    (add_sensor_data s ao ko now db
        { sensor_id := ty ++ "_" ++ loc, value := v, unit := u }).db.sensors.map
        (fun s0 => (s0.sensor_id, s0.sensor_type)) =
      (on_message s ao ko now db topic (.obj (some v) (some u))).db.sensors.map
        (fun s0 => (s0.sensor_id, s0.sensor_type)) ∧
    ((db.sensors.find? (fun s0 => s0.sensor_id == ty ++ "_" ++ loc)).isSome →
      (add_sensor_data s ao ko now db
        { sensor_id := ty ++ "_" ++ loc, value := v, unit := u }).db.sensors =
      (on_message s ao ko now db topic (.obj (some v) (some u))).db.sensors) := by
  rw [on_message_topic3 s ao ko now db topic (some v) (some u) "sensors" ty loc htopic]
  cases hf : db.sensors.find? (fun s0 => s0.sensor_id == ty ++ "_" ++ loc) with
  | none =>
      have hA : add_sensor_data s ao ko now db
          { sensor_id := ty ++ "_" ++ loc, value := v, unit := u } =
          process_sensor_data s ao ko now db
            { sensor_id := ty ++ "_" ++ loc, name := ty ++ "_" ++ loc
            , location := "unknown", sensor_type := ty, value := v, unit := u
            , timestamp := some now } := by
        simp only [add_sensor_data, add_sensor_data_payload, hf, hsplit]
      have hC := process_sensor_data_congr s ao ko now db
        { sensor_id := ty ++ "_" ++ loc, name := ty ++ "_" ++ loc
        , location := "unknown", sensor_type := ty, value := v, unit := u
        , timestamp := some now }
        (mqtt_sensor_data now ty loc (some v) (some u)) rfl rfl rfl rfl rfl
      rw [hA]
      refine ⟨hC.1, hC.2.1, hC.2.2.1, hC.2.2.2.1, hC.2.2.2.2.1, ?_⟩
      intro hsome
      simp at hsome
  | some s0 =>
      have hmem := List.mem_of_find?_eq_some hf
      have hid0 : s0.sensor_id = ty ++ "_" ++ loc := by
        have hp := List.find?_some hf
        simpa using hp
      have hty0 : s0.sensor_type = ty := hreg s0 hmem hid0
      have hA : add_sensor_data s ao ko now db
          { sensor_id := ty ++ "_" ++ loc, value := v, unit := u } =
          process_sensor_data s ao ko now db
            { sensor_id := ty ++ "_" ++ loc, name := s0.name
            , location := s0.location, sensor_type := s0.sensor_type
            , value := v, unit := u, timestamp := some now } := by
        simp only [add_sensor_data, add_sensor_data_payload, hf]
      have hC := process_sensor_data_congr s ao ko now db
        { sensor_id := ty ++ "_" ++ loc, name := s0.name
        , location := s0.location, sensor_type := s0.sensor_type
        , value := v, unit := u, timestamp := some now }
        (mqtt_sensor_data now ty loc (some v) (some u)) rfl (by exact hty0)
        rfl rfl rfl
      rw [hA]
      refine ⟨hC.1, hC.2.1, hC.2.2.1, hC.2.2.2.1, hC.2.2.2.2.1, ?_⟩
      intro _
      exact hC.2.2.2.2.2 (show (db.sensors.find?
        (fun s0 => s0.sensor_id == ty ++ "_" ++ loc)).isSome = true by
          rw [hf]; rfl)

/-- Witness for C7's amended statement: on a fresh database, the
`temperature_den` reading through both transports leaves the same readings
and the same alerts. -/
theorem C7_transport_equivalence_witness :
    (add_sensor_data defaultSettings true true 0 Db.empty
      { sensor_id := "temperature" ++ "_" ++ "den", value := 35
      , unit := "C" }).db.readings =
    (on_message defaultSettings true true 0 Db.empty "sensors/temperature/den"
      (.obj (some 35) (some "C"))).db.readings ∧
    (add_sensor_data defaultSettings true true 0 Db.empty
      { sensor_id := "temperature" ++ "_" ++ "den", value := 35
      , unit := "C" }).db.alerts =
    (on_message defaultSettings true true 0 Db.empty "sensors/temperature/den"
      (.obj (some 35) (some "C"))).db.alerts := by
  have h := C7_transport_equivalence defaultSettings true true 0 Db.empty
    "temperature" "den" "sensors/temperature/den" 35 "C" (by decide) (by decide)
    (by intro s0 hs0; simp [Db.empty] at hs0)
  exact ⟨h.1, h.2.1⟩

/-- C8: sensor resolution is idempotent and non-mutating: if every
identifier has at most one sensor row, then after any ingestion this still
holds and the ingested identifier has exactly one row; and an ingestion
for an already-registered identifier leaves the sensors table completely
unchanged (in particular name, location and sensor-type of the existing
row), whatever fallback metadata the new reading carries. -/
theorem C8_sensor_resolution :
    (∀ (s : Settings) (ao ko : Bool) (now : Int) (db : Db) (d : SensorData),
      (∀ sid, sidCount db sid ≤ 1) →
      (∀ sid, sidCount (process_sensor_data s ao ko now db d).db sid ≤ 1) ∧
      sidCount (process_sensor_data s ao ko now db d).db d.sensor_id = 1) ∧
    (∀ (s : Settings) (ao ko : Bool) (now : Int) (db : Db) (d : SensorData),
      (db.sensors.find? (fun s0 => s0.sensor_id == d.sensor_id)).isSome →
      (process_sensor_data s ao ko now db d).db.sensors = db.sensors) := by
  constructor
  · intro s ao ko now db d hone
    have hsen := process_sensor_data_sensors s ao ko now db d
    cases hf : db.sensors.find? (fun s0 => s0.sensor_id == d.sensor_id) with
    | some s0 =>
        simp only [hf] at hsen
        have hmem := List.mem_of_find?_eq_some hf
        have hpred := List.find?_some hf
        constructor
        · intro sid
          unfold sidCount
          rw [hsen]
          exact hone sid
        · unfold sidCount
          rw [hsen]
          have h1 : s0 ∈ db.sensors.filter (fun s1 => s1.sensor_id == d.sensor_id) :=
            List.mem_filter.mpr ⟨hmem, hpred⟩
          have h2 : 0 < (db.sensors.filter
              (fun s1 => s1.sensor_id == d.sensor_id)).length :=
            List.length_pos.mpr (List.ne_nil_of_mem h1)
          have h3 := hone d.sensor_id
          unfold sidCount at h3
          omega
    | none =>
        simp only [hf] at hsen
        have hempty : db.sensors.filter (fun s1 => s1.sensor_id == d.sensor_id) = [] := by
          rw [List.filter_eq_nil_iff]
          intro s1 hs1
          have hp := List.find?_eq_none.mp hf s1 hs1
          simpa using hp
        constructor
        · intro sid
          unfold sidCount
          rw [hsen, List.filter_append]
          by_cases hsid : sid = d.sensor_id
          · subst hsid
            rw [hempty]
            simp
          · have h4 := hone sid
            unfold sidCount at h4
            have hne : (d.sensor_id == sid) = false := by
              simpa using fun h => hsid h.symm
            simpa [hne] using h4
        · unfold sidCount
          rw [hsen, List.filter_append, hempty]
          simp
  · intro s ao ko now db d hsome
    have hsen := process_sensor_data_sensors s ao ko now db d
    cases hf : db.sensors.find? (fun s0 => s0.sensor_id == d.sensor_id) with
    | some s0 => simp only [hf] at hsen; exact hsen
    | none => rw [hf] at hsome; simp at hsome

/-- Witness for C8: after ingesting `temperature_den` into the empty
database there is exactly one row for it, and re-ingesting the same
identifier with entirely different fallback metadata leaves the sensors
table unchanged. -/
theorem C8_sensor_resolution_witness :
    sidCount (process_sensor_data defaultSettings true true 0 Db.empty
      { sensor_id := "temperature_den", name := "temperature_den"
      , location := "unknown", sensor_type := "temperature"
      , value := 35, unit := "C", timestamp := some 0 }).db
      "temperature_den" = 1 ∧
    (process_sensor_data defaultSettings true true 9000
      (process_sensor_data defaultSettings true true 0 Db.empty
        { sensor_id := "temperature_den", name := "temperature_den"
        , location := "unknown", sensor_type := "temperature"
        , value := 35, unit := "C", timestamp := some 0 }).db
      { sensor_id := "temperature_den", name := "Other Name"
      , location := "Somewhere", sensor_type := "pressure"
      , value := 1, unit := "bar", timestamp := some 9000 }).db.sensors =
    (process_sensor_data defaultSettings true true 0 Db.empty
      { sensor_id := "temperature_den", name := "temperature_den"
      , location := "unknown", sensor_type := "temperature"
      , value := 35, unit := "C", timestamp := some 0 }).db.sensors := by
  constructor
  · exact (C8_sensor_resolution.1 defaultSettings true true 0 Db.empty
      { sensor_id := "temperature_den", name := "temperature_den"
      , location := "unknown", sensor_type := "temperature"
      , value := 35, unit := "C", timestamp := some 0 }
      (by intro sid; simp [sidCount, Db.empty])).2
  · exact C8_sensor_resolution.2 defaultSettings true true 9000
      (process_sensor_data defaultSettings true true 0 Db.empty
        { sensor_id := "temperature_den", name := "temperature_den"
        , location := "unknown", sensor_type := "temperature"
        , value := 35, unit := "C", timestamp := some 0 }).db
      { sensor_id := "temperature_den", name := "Other Name"
      , location := "Somewhere", sensor_type := "pressure"
      , value := 1, unit := "bar", timestamp := some 9000 }
      (by decide)

lemma queryPool_mem (db : Db) (sid : String) (st et : Option Int)
    (r : SensorReading) (hr : r ∈ queryPool db sid st et) :
    r ∈ db.readings ∧ r.sensor_id = sid ∧
    (∀ t, st = some t → t ≤ r.timestamp) ∧
    (∀ t, et = some t → r.timestamp ≤ t) := by
  rcases st with _ | t1 <;> rcases et with _ | t2 <;>
    simp only [queryPool] at hr
  · obtain ⟨hmem, hpred⟩ := List.mem_filter.mp hr
    refine ⟨hmem, by simpa using hpred, ?_, ?_⟩
    · intro t ht
      cases ht
    · intro t ht
      cases ht
  · obtain ⟨hr1, hp2⟩ := List.mem_filter.mp hr
    obtain ⟨hmem, hpred⟩ := List.mem_filter.mp hr1
    refine ⟨hmem, by simpa using hpred, ?_, ?_⟩
    · intro t ht
      cases ht
    · intro t ht
      cases ht
      simpa using hp2
  · obtain ⟨hr1, hp1⟩ := List.mem_filter.mp hr
    obtain ⟨hmem, hpred⟩ := List.mem_filter.mp hr1
    refine ⟨hmem, by simpa using hpred, ?_, ?_⟩
    · intro t ht
      cases ht
      simpa using hp1
    · intro t ht
      cases ht
  · obtain ⟨hr2, hp2⟩ := List.mem_filter.mp hr
    obtain ⟨hr1, hp1⟩ := List.mem_filter.mp hr2
    obtain ⟨hmem, hpred⟩ := List.mem_filter.mp hr1
    refine ⟨hmem, by simpa using hpred, ?_, ?_⟩
    · intro t ht
      cases ht
      simpa using hp1
    · intro t ht
      cases ht
      simpa using hp2

/-- C9: a readings query returns `take limit` of the descending-by-
timestamp ordering of the rows matching the sensor and the optional time
window: at most `limit` rows, sorted descending, every returned row at
least as recent as every row left out, the returned and left-out rows
together being exactly the matching rows; each returned row belongs to the
store, names the queried sensor and lies in the window.  Concretely,
querying with limit 2 after 5 appends returns exactly the 2 most recent
readings, descending by timestamp. -/
theorem C9_query_readings :
    (∀ (db : Db) (sid : String) (limit : Nat) (st et : Option Int),
      (get_sensor_readings db sid limit st et).length =
        min limit (queryPool db sid st et).length ∧
      List.Sorted tsDesc (get_sensor_readings db sid limit st et) ∧
      (∃ rest, get_sensor_readings db sid limit st et ++ rest =
          List.insertionSort tsDesc (queryPool db sid st et) ∧
        (get_sensor_readings db sid limit st et ++ rest).Perm
          (queryPool db sid st et) ∧
        ∀ a ∈ get_sensor_readings db sid limit st et, ∀ b ∈ rest,
          b.timestamp ≤ a.timestamp) ∧
      (∀ r ∈ get_sensor_readings db sid limit st et,
        r ∈ db.readings ∧ r.sensor_id = sid ∧
        (∀ t, st = some t → t ≤ r.timestamp) ∧
        (∀ t, et = some t → r.timestamp ≤ t))) ∧
    get_sensor_readings demoDb5 "humidity_den" 2 none none =
      [⟨"humidity_den", 5, 45, "%"⟩, ⟨"humidity_den", 4, 44, "%"⟩] := by
  constructor
  · intro db sid limit st et
    have hperm := List.perm_insertionSort tsDesc (queryPool db sid st et)
    have hsorted := List.sorted_insertionSort tsDesc (queryPool db sid st et)
    refine ⟨?_, ?_, ?_, ?_⟩
    · rw [get_sensor_readings, List.length_take, hperm.length_eq]
    · exact List.Pairwise.sublist (List.take_sublist _ _) hsorted
    · refine ⟨(List.insertionSort tsDesc (queryPool db sid st et)).drop limit,
        ?_, ?_, ?_⟩
      · rw [get_sensor_readings, List.take_append_drop]
      · rw [get_sensor_readings, List.take_append_drop]
        exact hperm
      · intro a ha b hb
        have hs := hsorted
        rw [← List.take_append_drop limit
          (List.insertionSort tsDesc (queryPool db sid st et))] at hs
        exact (List.pairwise_append.mp hs).2.2 a ha b hb
    · intro r hr
      have hrL : r ∈ List.insertionSort tsDesc (queryPool db sid st et) :=
        (List.take_sublist _ _).subset hr
      exact queryPool_mem db sid st et r (hperm.subset hrL)
  · decide

/-- Witness for C9: evaluation at the five-append database, with a time
window [2, 4]: the returned row 44-at-4 belongs to the store, and the
length/sortedness facts hold at limit 2. -/
theorem C9_query_readings_witness :
    (get_sensor_readings demoDb5 "humidity_den" 2 none none).length =
      min 2 (queryPool demoDb5 "humidity_den" none none).length ∧
    List.Sorted tsDesc (get_sensor_readings demoDb5 "humidity_den" 2 none none) ∧
    (⟨"humidity_den", 4, 44, "%"⟩ : SensorReading) ∈ demoDb5.readings ∧
    (2 : Int) ≤ (4 : Int) := by
  have h := C9_query_readings.1 demoDb5 "humidity_den" 2 none none
  have hw := C9_query_readings.1 demoDb5 "humidity_den" 2 (some 2) (some 4)
  have hmem := hw.2.2.2 ⟨"humidity_den", 4, 44, "%"⟩ (by decide)
  exact ⟨h.1, h.2.1, hmem.1, hmem.2.2.1 2 rfl⟩

/-- C10: readings stored through either transport carry the ingestion
time, never a sensor-supplied origin timestamp: the public input shapes
(`SensorDataIn` for the HTTP body, topic plus `MqttPayload` for the bus)
have no timestamp field at all, both transports stamp the dict with the
handling-time clock before invoking the gateway, and the stored reading's
timestamp equals that clock (so the gateway's `get("timestamp", utcnow)`
default branch is never taken on these paths). -/
theorem C10_timestamp_is_ingestion_time :
    (∀ (now : Int) (db : Db) (data : SensorDataIn),
      (add_sensor_data_payload now db data).timestamp = some now) ∧
    (∀ (s : Settings) (ko : Bool) (now : Int) (db : Db) (data : SensorDataIn),
      (add_sensor_data s true ko now db data).db.readings =
        db.readings ++
          [{ sensor_id := data.sensor_id, timestamp := now
           , value := data.value, unit := data.unit }]) ∧
    (∀ (now : Int) (ty loc : String) (v : Option ℚ) (u : Option String),
      (mqtt_sensor_data now ty loc v u).timestamp = some now) ∧
    (∀ (s : Settings) (ko : Bool) (now : Int) (db : Db) (topic : String)
      (v : Option ℚ) (u : Option String),
      3 ≤ (pySplit '/' topic).length →
      (on_message s true ko now db topic (.obj v u)).db.readings =
        db.readings ++
          [{ sensor_id := (pySplit '/' topic).getD 1 "" ++ "_" ++
               (pySplit '/' topic).getD 2 ""
           , timestamp := now, value := v.getD 0, unit := u.getD "" }]) := by
  refine ⟨?_, ?_, ?_, ?_⟩
  · intro now db data
    rfl
  · intro s ko now db data
    simp [add_sensor_data, add_sensor_data_payload, process_sensor_data_readings]
  · intro now ty loc v u
    rfl
  · intro s ko now db topic v u hlen
    simp only [on_message]
    rw [if_pos hlen]
    simp [mqtt_sensor_data, process_sensor_data_readings]

/-- Witness for C10 at a concrete bus message: the stored reading's
timestamp is the handling-time clock 123. -/
theorem C10_timestamp_is_ingestion_time_witness :
    (on_message defaultSettings true true 123 Db.empty
      "sensors/temperature/attic" (.obj (some 21) none)).db.readings =
      Db.empty.readings ++
        [{ sensor_id := (pySplit '/' "sensors/temperature/attic").getD 1 "" ++
             "_" ++ (pySplit '/' "sensors/temperature/attic").getD 2 ""
         , timestamp := 123, value := (some (21 : ℚ)).getD 0
         , unit := (none : Option String).getD "" }] := by
  exact C10_timestamp_is_ingestion_time.2.2.2 defaultSettings true 123
    Db.empty "sensors/temperature/attic" (some 21) none (by decide)

end PyDash
